import Mathlib

/-!
Shallow embedding of the DriveHub booking-intake service (`models.js`:
the Mongoose `Booking` schema plus the Express `server.js` handlers).

External collaborators are modelled explicitly:
  * `shortid.generate()` and `Date.now()` are nondeterministic sources,
    so the handler is parametrised over an `Env` carrying the tokens and
    the clock value used during one request;
  * `new Date(string)` (JS date parsing) is an opaque platform function,
    carried in `Env` as `parseDate : String → Int` (epoch timestamp);
  * MongoDB is modelled as a list of `Booking` records; `save` on a
    schema with `unique: true` on `bookingId` fails on a duplicate key;
  * multer's disk storage is modelled as a list of stored filenames.
-/

/-- A JavaScript value that can appear in the `aadhaarVerified` slot of a
request body: either a string (form-encoded transport) or a boolean
(JSON transport). -/
inductive JsValue where
  | str : String → JsValue
  | bool : Bool → JsValue
deriving DecidableEq, Repr

/-- JS truthiness of an optional body field holding a `JsValue`
(`undefined`, `false` and `""` are falsy). -/
def jsTruthy : Option JsValue → Bool
  | none => false
  | some (JsValue.str s) => !s.isEmpty
  | some (JsValue.bool b) => b

/-- JS truthiness of an optional string body field (`!field` in the
source is true exactly when the field is `undefined` or `""`). -/
def truthyStr : Option String → Bool
  | none => false
  | some s => !s.isEmpty

/-- JS `x || d` for an optional string `x` and string default `d`
(the handler defaults `paymentMode` to `UPI` this way). -/
def jsOrDefault (o : Option String) (d : String) : String :=
  match o with
  | none => d
  | some s => if s.isEmpty then d else s

/-- JS `x || null` for an optional string `x`
(the handler normalizes `txnId` to null this way). -/
def jsOrNull (o : Option String) : Option String :=
  match o with
  | none => none
  | some s => if s.isEmpty then none else some s

/-- The text part of a `POST /api/bookings` request body, as destructured
by the handler (`req.body`).  Each field is `none` when absent. -/
structure ReqBody where
  name : Option String
  contact : Option String
  aadhar : Option String
  license : Option String
  pickup : Option String
  drop : Option String
  pickupDate : Option String
  returnDate : Option String
  paymentMode : Option String
  txnId : Option String
  aadhaarVerified : Option JsValue
deriving DecidableEq, Repr

/-- A file stored by multer's `diskStorage`: the generated filename. -/
structure StoredFile where
  filename : String
deriving DecidableEq, Repr

/-- Model of `req.files` after multer's `upload.fields` middleware with the
slots `aadharPhoto` and `licensePhoto`: each slot is `none` when no file
part arrived for it. -/
structure ReqFiles where
  aadharPhoto : Option StoredFile
  licensePhoto : Option StoredFile
deriving DecidableEq, Repr

/-- A persisted `Booking` document (the Mongoose schema in `models/Booking.js`).
Dates are epoch timestamps (`Int`); `txnId: none` models the stored `null`. -/
structure Booking where
  bookingId : String
  name : String
  contact : String
  aadhar : String
  aadharPhoto : String
  license : String
  licensePhoto : String
  pickup : String
  drop : String
  pickupDate : Int
  returnDate : Int
  paymentMode : String
  txnId : Option String
  aadhaarVerified : Bool
  createdAt : Int
deriving DecidableEq, Repr

/-- Datastore-level failure surfaced by `booking.save()`. -/
inductive StoreError where
  | duplicateKey : StoreError
deriving DecidableEq, Repr

/-- Model of `booking.save()` against the schema's `unique: true` constraint on
`bookingId`: fails with a duplicate-key error when a record with the
same `bookingId` already exists, otherwise inserts the record. -/
def storeCreate (b : Booking) (store : List Booking) :
    Except StoreError (List Booking) :=
  if store.any (fun x => x.bookingId == b.bookingId) then
    Except.error StoreError.duplicateKey
  else
    Except.ok (b :: store)

/-- Model of `Booking.findOne({ bookingId: id })`: the first stored record
whose `bookingId` matches. -/
def findByBookingId (id : String) (store : List Booking) : Option Booking :=
  store.find? (fun x => x.bookingId == id)

/-- The error taxonomy of the booking handler's responses. -/
inductive ApiError where
  /-- Rejection with status 400 and the missing-required-fields message. -/
  | missingFields : ApiError
  /-- Rejection with status 400 and the aadhaar-must-be-verified message. -/
  | verificationRequired : ApiError
  /-- Rejection with status 400 and the photos-are-required message. -/
  | missingDocuments : ApiError
  /-- Rejection with status 500 and the generic server-error message
  (a datastore failure reaches the catch block). -/
  | persistence : ApiError
deriving DecidableEq, Repr

/-- The HTTP status code the handler sends for each error. -/
def ApiError.status : ApiError → Nat
  | ApiError.missingFields => 400
  | ApiError.verificationRequired => 400
  | ApiError.missingDocuments => 400
  | ApiError.persistence => 500

/-- Per-request environment: the opaque platform sources one request
consumes.  `parseDate` models `new Date(string)` as an epoch timestamp,
`now` models `Date.now()`, and the `tok*` fields are the outputs of the
successive `shortid.generate()` calls (aadhar filename, license
filename, booking id). -/
structure Env where
  parseDate : String → Int
  now : Int
  tokA : String
  tokL : String
  idTok : String

/-- The required-field gate of the handler:
`!name || !contact || !aadhar || !license || !pickup || !drop || !pickupDate || !returnDate`. -/
def requiredFieldsOk (body : ReqBody) : Bool :=
  truthyStr body.name && truthyStr body.contact && truthyStr body.aadhar &&
  truthyStr body.license && truthyStr body.pickup && truthyStr body.drop &&
  truthyStr body.pickupDate && truthyStr body.returnDate

/-- The verification gate's failure condition:
the flag is falsy, or differs from both the string form of true and the
boolean true (two strict inequality tests in the source). -/
def verificationFails (v : Option JsValue) : Bool :=
  !jsTruthy v ||
    (!(v == some (JsValue.str "true")) && !(v == some (JsValue.bool true)))

/-- The value stored in the record field `aadhaarVerified`: a strict
equality test against the string form of true or the boolean true. -/
def verifiedValue (v : Option JsValue) : Bool :=
  (v == some (JsValue.str "true")) || (v == some (JsValue.bool true))

/-- The `POST /api/bookings` handler body, after multer has populated
`req.files`.  Returns the response (`ok` carries the `bookingId` and the
echoed `booking` of the 201 payload) together with the resulting store:
on any error path the store is returned unchanged. -/
def postBooking (env : Env) (body : ReqBody) (files : ReqFiles)
    (store : List Booking) :
    Except ApiError (String × Booking) × List Booking :=
  if !requiredFieldsOk body then
    (Except.error ApiError.missingFields, store)
  else if verificationFails body.aadhaarVerified then
    (Except.error ApiError.verificationRequired, store)
  else
    match files.aadharPhoto, files.licensePhoto with
    | some aadharPhotoFile, some licensePhotoFile =>
        let bookingId := "DH-" ++ env.idTok
        let booking : Booking := {
          bookingId := bookingId
          name := body.name.getD ""
          contact := body.contact.getD ""
          aadhar := body.aadhar.getD ""
          aadharPhoto := "/uploads/" ++ aadharPhotoFile.filename
          license := body.license.getD ""
          licensePhoto := "/uploads/" ++ licensePhotoFile.filename
          pickup := body.pickup.getD ""
          drop := body.drop.getD ""
          pickupDate := env.parseDate (body.pickupDate.getD "")
          returnDate := env.parseDate (body.returnDate.getD "")
          paymentMode := jsOrDefault body.paymentMode "UPI"
          txnId := jsOrNull body.txnId
          aadhaarVerified := verifiedValue body.aadhaarVerified
          createdAt := env.now }
        match storeCreate booking store with
        | Except.error _ => (Except.error ApiError.persistence, store)
        | Except.ok store' => (Except.ok (bookingId, booking), store')
    | _, _ => (Except.error ApiError.missingDocuments, store)

/-- Handler of `GET /api/bookings`:
`Booking.find().sort({ createdAt: -1 }).limit(200)`.
The sort key is `createdAt`, descending. -/
def listRecent (store : List Booking) : List Booking :=
  (store.mergeSort (fun a b => b.createdAt ≤ a.createdAt)).take 200

/-- The configured multer byte-size ceiling of 5 MiB (fileSize limit). -/
def fileSizeLimit : Nat := 5 * 1024 * 1024

/-- File-intake failures raised by multer before the handler runs. -/
inductive FileError where
  /-- The `fileFilter` callback rejected a non-image content type
  (only image uploads are allowed). -/
  | unsupportedMediaType : FileError
  /-- The `limits.fileSize` ceiling was exceeded (`LIMIT_FILE_SIZE`). -/
  | payloadTooLarge : FileError
deriving DecidableEq, Repr

/-- An incoming multipart file part: its declared content type, its byte
length, and `path.extname(file.originalname)`. -/
structure UploadPart where
  mimetype : String
  size : Nat
  originalExt : String
deriving DecidableEq, Repr

/-- The diskStorage filename callback: the clock value, a dash, a
generator token, and the original extension, concatenated. -/
def mkFilename (now : Int) (tok : String) (ext : String) : String :=
  toString now ++ "-" ++ tok ++ ext

/-- JS `String.prototype.startsWith`: the second string is a prefix of
the first. -/
def strStartsWith (s pre : String) : Bool :=
  pre.toList.isPrefixOf s.toList

/-- Multer's acceptance of one file part: the `fileFilter` rejects a
content type that does not start with `image/`, the fileSize ceiling
rejects a part whose byte length exceeds 5 MiB, and an accepted part is
stored under the generated filename. -/
def acceptFile (p : UploadPart) (fname : String) : Except FileError StoredFile :=
  if !(strStartsWith p.mimetype "image/") then
    Except.error FileError.unsupportedMediaType
  else if fileSizeLimit < p.size then
    Except.error FileError.payloadTooLarge
  else
    Except.ok ⟨fname⟩

/-- An error of the whole request: either a multer file-intake failure
(the handler never runs) or a handler-level failure. -/
inductive ReqError where
  | file : FileError → ReqError
  | api : ApiError → ReqError
deriving DecidableEq, Repr

/-- Outcome of one full `POST /api/bookings` request: the response, the
resulting store, and the resulting upload directory (list of stored
filenames). -/
structure ReqResult where
  response : Except ReqError (String × Booking)
  store : List Booking
  disk : List String
deriving Repr

/-- File intake for one declared slot: an absent part fills nothing; a
present part is run through `acceptFile`, and on success its bytes are
written into the upload directory under the generated name. -/
def intakeSlot (now : Int) (tok : String) (up : Option UploadPart)
    (disk : List String) : Except FileError (Option StoredFile × List String) :=
  match up with
  | none => Except.ok (none, disk)
  | some p =>
      match acceptFile p (mkFilename now tok p.originalExt) with
      | Except.error e => Except.error e
      | Except.ok f => Except.ok (some f, disk ++ [f.filename])

/-- One full `POST /api/bookings` request: multer's `upload.fields`
middleware runs first (slot `aadharPhoto`, then slot `licensePhoto`);
on a rejected part multer removes this request's already-written files
and the handler never runs; otherwise the handler body `postBooking`
runs with the populated `req.files`. -/
def handleRequest (env : Env) (body : ReqBody) (aUp lUp : Option UploadPart)
    (store : List Booking) (disk : List String) : ReqResult :=
  match intakeSlot env.now env.tokA aUp disk with
  | Except.error e => ⟨Except.error (ReqError.file e), store, disk⟩
  | Except.ok (fA, disk1) =>
      match intakeSlot env.now env.tokL lUp disk1 with
      | Except.error e => ⟨Except.error (ReqError.file e), store, disk⟩
      | Except.ok (fL, disk2) =>
          match postBooking env body ⟨fA, fL⟩ store with
          | (Except.error e, store') =>
              ⟨Except.error (ReqError.api e), store', disk2⟩
          | (Except.ok r, store') => ⟨Except.ok r, store', disk2⟩

/-! Concrete fixtures used by witnesses and counterexamples. -/

/-- A concrete environment: date parsing returns epoch 7, the clock reads 0,
and the generator yields tokens `a`, `b`, `c`. -/
def env0 : Env :=
  { parseDate := fun _ => 7, now := 0, tokA := "a", tokL := "b", idTok := "c" }

/-- A concrete request body that passes all text gates; `paymentMode` and
`txnId` are submitted present but empty. -/
def body0 : ReqBody := {
  name := some "A", contact := some "9999999999", aadhar := some "1234",
  license := some "LIC1", pickup := some "X", drop := some "Y",
  pickupDate := some "2024-01-01", returnDate := some "2024-01-05",
  paymentMode := some "", txnId := some "",
  aadhaarVerified := some (JsValue.bool true) }

/-- Two populated file slots. -/
def files0 : ReqFiles :=
  { aadharPhoto := some ⟨"f1.jpg"⟩, licensePhoto := some ⟨"f2.jpg"⟩ }

/-! Helper lemmas shared between claims. -/

/-- An absent field is falsy. -/
theorem truthyStr_none : truthyStr none = false := rfl

/-- An empty field is falsy. -/
theorem truthyStr_empty : truthyStr (some "") = false := by decide

/-- The verification gate passes exactly on the boolean `true` and the
string `"true"`. -/
theorem verificationFails_eq_false (v : Option JsValue) :
    verificationFails v = false ↔
      v = some (JsValue.bool true) ∨ v = some (JsValue.str "true") := by
  cases v with
  | none => simp [verificationFails, jsTruthy]
  | some j =>
      cases j with
      | str s =>
          simp [verificationFails, jsTruthy, String.isEmpty_iff]
          intro h
          subst h
          decide
      | bool b => cases b <;> simp [verificationFails, jsTruthy]

/-- On a value accepted by the verification gate, the stored flag
(a strict equality test against either accepted form) is `true`. -/
theorem verifiedValue_of_pass (v : Option JsValue)
    (h : verificationFails v = false) : verifiedValue v = true := by
  rcases (verificationFails_eq_false v).mp h with h' | h' <;>
    simp [verifiedValue, h']

/-- C1: a submission in which any of the eight required text fields is
absent or empty is rejected by the handler with the missing-fields error
(HTTP 400) and the store is unchanged. -/
theorem c1_required_field_gate (env : Env) (body : ReqBody) (files : ReqFiles)
    (store : List Booking)
    (h : body.name = none ∨ body.name = some "" ∨
         body.contact = none ∨ body.contact = some "" ∨
         body.aadhar = none ∨ body.aadhar = some "" ∨
         body.license = none ∨ body.license = some "" ∨
         body.pickup = none ∨ body.pickup = some "" ∨
         body.drop = none ∨ body.drop = some "" ∨
         body.pickupDate = none ∨ body.pickupDate = some "" ∨
         body.returnDate = none ∨ body.returnDate = some "") :
    postBooking env body files store = (Except.error ApiError.missingFields, store) ∧
    ApiError.status ApiError.missingFields = 400 := by
  have hreq : requiredFieldsOk body = false := by
    rcases h with h|h|h|h|h|h|h|h|h|h|h|h|h|h|h|h <;>
      simp [requiredFieldsOk, h, truthyStr_none, truthyStr_empty]
  exact ⟨by simp [postBooking, hreq], rfl⟩

/-- C1 witness: a concrete submission with an absent `name` is rejected
with the missing-fields error. -/
theorem c1_witness :
    postBooking env0 { body0 with name := none } files0 [] =
      (Except.error ApiError.missingFields, []) ∧
    ApiError.status ApiError.missingFields = 400 :=
  c1_required_field_gate env0 { body0 with name := none } files0 []
    (Or.inl rfl)

/-- C2: among submissions passing the required-field gate, the handler
rejects with the verification-required error (HTTP 400) exactly when the
verification flag is neither the boolean `true` nor the string `"true"`
(in particular when it is absent or `false`); both accepted forms are
equivalent. -/
theorem c2_verification_gate (env : Env) (body : ReqBody) (files : ReqFiles)
    (store : List Booking)
    (hreq : requiredFieldsOk body = true) :
    ((postBooking env body files store).1 =
        Except.error ApiError.verificationRequired ↔
      ¬(body.aadhaarVerified = some (JsValue.bool true) ∨
        body.aadhaarVerified = some (JsValue.str "true"))) ∧
    ApiError.status ApiError.verificationRequired = 400 := by
  refine ⟨?_, rfl⟩
  have key : (postBooking env body files store).1 =
      Except.error ApiError.verificationRequired ↔
      verificationFails body.aadhaarVerified = true := by
    unfold postBooking
    cases hv : verificationFails body.aadhaarVerified with
    | true => simp [hreq]
    | false =>
        simp [hreq]
        obtain ⟨fA, fL⟩ := files
        cases fA <;> cases fL <;> simp
        split <;> simp
  rw [key, ← verificationFails_eq_false]
  simp

/-- C2 witness: with all text fields present, an absent verification flag
is rejected with the verification-required error. -/
theorem c2_witness :
    requiredFieldsOk { body0 with aadhaarVerified := none } = true ∧
    ((postBooking env0 { body0 with aadhaarVerified := none } files0 []).1 =
      Except.error ApiError.verificationRequired ↔ True) :=
  ⟨by decide, by
    rw [(c2_verification_gate env0 { body0 with aadhaarVerified := none }
          files0 [] (by decide)).1]
    simp⟩

/-- C3: a submission passing the required-field and verification gates
whose request left either file slot unfilled is rejected with the
missing-documents error (HTTP 400) and the store is unchanged. -/
theorem c3_document_gate (env : Env) (body : ReqBody) (files : ReqFiles)
    (store : List Booking)
    (hreq : requiredFieldsOk body = true)
    (hver : body.aadhaarVerified = some (JsValue.bool true) ∨
            body.aadhaarVerified = some (JsValue.str "true"))
    (hmiss : files.aadharPhoto = none ∨ files.licensePhoto = none) :
    postBooking env body files store =
      (Except.error ApiError.missingDocuments, store) ∧
    ApiError.status ApiError.missingDocuments = 400 := by
  have hv : verificationFails body.aadhaarVerified = false :=
    (verificationFails_eq_false body.aadhaarVerified).mpr hver
  refine ⟨?_, rfl⟩
  unfold postBooking
  obtain ⟨fA, fL⟩ := files
  rcases hmiss with hm | hm
  · simp at hm
    subst hm
    cases fL <;> simp [hreq, hv]
  · simp at hm
    subst hm
    cases fA <;> simp [hreq, hv]

/-- C3 witness: a concrete submission with a missing license photo is
rejected with the missing-documents error. -/
theorem c3_witness :
    postBooking env0 body0 { files0 with licensePhoto := none } [] =
      (Except.error ApiError.missingDocuments, []) ∧
    ApiError.status ApiError.missingDocuments = 400 :=
  c3_document_gate env0 body0 { files0 with licensePhoto := none } []
    (by decide) (Or.inl rfl) (Or.inr rfl)

/-- Inversion of the success path of the handler: a 201 response implies
all three gates passed, the generated id was fresh in the store, and the
committed record is exactly the normalized one, prepended to the store. -/
theorem postBooking_ok_inv (env : Env) (body : ReqBody) (files : ReqFiles)
    (store : List Booking) (id : String) (b : Booking) (store' : List Booking)
    (hok : postBooking env body files store = (Except.ok (id, b), store')) :
    requiredFieldsOk body = true ∧
    verificationFails body.aadhaarVerified = false ∧
    (∃ af lf, files.aadharPhoto = some af ∧ files.licensePhoto = some lf ∧
      b = { bookingId := "DH-" ++ env.idTok
            name := body.name.getD ""
            contact := body.contact.getD ""
            aadhar := body.aadhar.getD ""
            aadharPhoto := "/uploads/" ++ af.filename
            license := body.license.getD ""
            licensePhoto := "/uploads/" ++ lf.filename
            pickup := body.pickup.getD ""
            drop := body.drop.getD ""
            pickupDate := env.parseDate (body.pickupDate.getD "")
            returnDate := env.parseDate (body.returnDate.getD "")
            paymentMode := jsOrDefault body.paymentMode "UPI"
            txnId := jsOrNull body.txnId
            aadhaarVerified := verifiedValue body.aadhaarVerified
            createdAt := env.now }) ∧
    id = "DH-" ++ env.idTok ∧
    (∀ old ∈ store, old.bookingId ≠ id) ∧
    store' = b :: store := by
  have hreq : requiredFieldsOk body = true := by
    by_contra h
    have h' : requiredFieldsOk body = false := by simpa using h
    simp [postBooking, h'] at hok
  have hver : verificationFails body.aadhaarVerified = false := by
    by_contra h
    have h' : verificationFails body.aadhaarVerified = true := by simpa using h
    simp [postBooking, hreq, h'] at hok
  obtain ⟨fA, fL⟩ := files
  cases fA with
  | none => simp [postBooking, hreq, hver] at hok
  | some af =>
    cases fL with
    | none => simp [postBooking, hreq, hver] at hok
    | some lf =>
      simp [postBooking, hreq, hver, storeCreate] at hok
      by_cases hs : ∃ x ∈ store, x.bookingId = "DH-" ++ env.idTok
      · simp [hs] at hok
      · simp [hs] at hok
        obtain ⟨⟨hid, hb⟩, hstore⟩ := hok
        subst hid
        subst hb
        push_neg at hs
        exact ⟨hreq, hver, ⟨af, lf, rfl, rfl, rfl⟩, rfl, hs, hstore.symm⟩

/-- Inversion of the error paths of the handler: an error response leaves
the store unchanged. -/
theorem postBooking_error_inv (env : Env) (body : ReqBody) (files : ReqFiles)
    (store : List Booking) (e : ApiError) (s : List Booking)
    (h : postBooking env body files store = (Except.error e, s)) :
    s = store := by
  unfold postBooking at h
  cases hreq : requiredFieldsOk body with
  | false => simp [hreq] at h; exact h.2.symm
  | true =>
    cases hver : verificationFails body.aadhaarVerified with
    | true => simp [hreq, hver] at h; exact h.2.symm
    | false =>
      obtain ⟨fA, fL⟩ := files
      cases fA with
      | none => simp [hreq, hver] at h; exact h.2.symm
      | some af =>
        cases fL with
        | none => simp [hreq, hver] at h; exact h.2.symm
        | some lf =>
          simp [hreq, hver, storeCreate] at h
          by_cases hs : ∃ x ∈ store, x.bookingId = "DH-" ++ env.idTok
          · simp [hs] at h; exact h.2.symm
          · simp [hs] at h

/-- C4 counterexample: a submission whose `paymentMode` and `txnId` are
present but empty is accepted, yet the committed record carries
`paymentMode = "UPI"` and `txnId = null` instead of the submitted empty
values: the default applies to empty submitted values, not only to
absent ones. -/
theorem c4_counterexample :
    body0.paymentMode = some "" ∧ body0.txnId = some "" ∧
    ((postBooking env0 body0 files0 []).1.toOption.map
      (fun r => (r.2.paymentMode, r.2.txnId))) = some ("UPI", none) :=
  ⟨rfl, rfl, rfl⟩

/-- C4 (amended): for every submission passing all three gates that is
committed, the record has the dates parsed from the submitted strings,
`paymentMode` equal to the submitted value when non-empty and `UPI` when
absent or empty, `txnId` equal to the submitted value when non-empty and
null when absent or empty, and the verified flag set to `true`. -/
theorem c4_normalized_record (env : Env) (body : ReqBody) (files : ReqFiles)
    (store : List Booking) (id : String) (b : Booking) (store' : List Booking)
    (hok : postBooking env body files store = (Except.ok (id, b), store')) :
    b.pickupDate = env.parseDate (body.pickupDate.getD "") ∧
    b.returnDate = env.parseDate (body.returnDate.getD "") ∧
    (∀ s, body.paymentMode = some s → s ≠ "" → b.paymentMode = s) ∧
    ((body.paymentMode = none ∨ body.paymentMode = some "") →
      b.paymentMode = "UPI") ∧
    (∀ s, body.txnId = some s → s ≠ "" → b.txnId = some s) ∧
    ((body.txnId = none ∨ body.txnId = some "") → b.txnId = none) ∧
    b.aadhaarVerified = true := by
  obtain ⟨hreq, hver, ⟨af, lf, hA, hL, hb⟩, hid, hfresh, hstore⟩ :=
    postBooking_ok_inv env body files store id b store' hok
  subst hb
  refine ⟨rfl, rfl, ?_, ?_, ?_, ?_, verifiedValue_of_pass _ hver⟩
  · intro s hs hne
    simp [jsOrDefault, hs, String.isEmpty_iff, hne]
  · rintro (hp | hp) <;> simp [jsOrDefault, hp, String.isEmpty_iff]
  · intro s hs hne
    simp [jsOrNull, hs, String.isEmpty_iff, hne]
  · rintro (hp | hp) <;> simp [jsOrNull, hp, String.isEmpty_iff]

/-- The record committed by the concrete accepted submission `body0`. -/
def bk0 : Booking := {
  bookingId := "DH-c", name := "A", contact := "9999999999",
  aadhar := "1234", aadharPhoto := "/uploads/f1.jpg", license := "LIC1",
  licensePhoto := "/uploads/f2.jpg", pickup := "X", drop := "Y",
  pickupDate := 7, returnDate := 7, paymentMode := "UPI", txnId := none,
  aadhaarVerified := true, createdAt := 0 }

/-- C4 witness: the concrete accepted submission is committed with the
defaulted payment mode, null transaction id and verified flag. -/
theorem c4_witness :
    bk0.paymentMode = "UPI" ∧ bk0.txnId = none ∧ bk0.aadhaarVerified = true :=
  have h := c4_normalized_record env0 body0 files0 [] "DH-c" bk0 [bk0] rfl
  ⟨h.2.2.2.1 (Or.inr rfl), h.2.2.2.2.2.1 (Or.inr rfl), h.2.2.2.2.2.2⟩

/-- C5: every accepted submission returns a booking id that is non-empty,
is exactly the prefix `DH-` followed by the generator token, is the id
of the committed record, and differs from the id of every previously
created booking. -/
theorem c5_booking_id (env : Env) (body : ReqBody) (files : ReqFiles)
    (store : List Booking) (id : String) (b : Booking) (store' : List Booking)
    (hok : postBooking env body files store = (Except.ok (id, b), store')) :
    id ≠ "" ∧ id = "DH-" ++ env.idTok ∧ b.bookingId = id ∧
    ∀ old ∈ store, old.bookingId ≠ id := by
  obtain ⟨hreq, hver, ⟨af, lf, hA, hL, hb⟩, hid, hfresh, hstore⟩ :=
    postBooking_ok_inv env body files store id b store' hok
  subst hb
  subst hid
  refine ⟨?_, rfl, rfl, hfresh⟩
  intro h
  have h' := congrArg String.length h
  rw [String.length_append] at h'
  have h3 : ("DH-" : String).length = 3 := rfl
  have h0 : ("" : String).length = 0 := rfl
  omega

/-- C5 witness: the concrete accepted submission against the empty store
returns the id built from the generator token `c`. -/
theorem c5_witness :
    "DH-c" ≠ "" ∧ "DH-c" = "DH-" ++ env0.idTok ∧ bk0.bookingId = "DH-c" ∧
    ∀ old ∈ ([] : List Booking), old.bookingId ≠ "DH-c" :=
  c5_booking_id env0 body0 files0 [] "DH-c" bk0 [bk0] rfl

/-- C6: a booking created by the handler and then fetched by its returned
id yields exactly the committed record, whose fields equal the submitted
values (dates normalized through the parser) including the stored photo
references. -/
theorem c6_round_trip (env : Env) (body : ReqBody) (files : ReqFiles)
    (store : List Booking) (id : String) (b : Booking) (store' : List Booking)
    (hok : postBooking env body files store = (Except.ok (id, b), store')) :
    findByBookingId id store' = some b ∧
    b.bookingId = id ∧
    b.name = body.name.getD "" ∧
    b.contact = body.contact.getD "" ∧
    b.aadhar = body.aadhar.getD "" ∧
    b.license = body.license.getD "" ∧
    b.pickup = body.pickup.getD "" ∧
    b.drop = body.drop.getD "" ∧
    b.pickupDate = env.parseDate (body.pickupDate.getD "") ∧
    b.returnDate = env.parseDate (body.returnDate.getD "") ∧
    (∀ af, files.aadharPhoto = some af →
      b.aadharPhoto = "/uploads/" ++ af.filename) ∧
    (∀ lf, files.licensePhoto = some lf →
      b.licensePhoto = "/uploads/" ++ lf.filename) := by
  obtain ⟨hreq, hver, ⟨af, lf, hA, hL, hb⟩, hid, hfresh, hstore⟩ :=
    postBooking_ok_inv env body files store id b store' hok
  subst hstore
  subst hb
  subst hid
  refine ⟨?_, rfl, rfl, rfl, rfl, rfl, rfl, rfl, rfl, rfl, ?_, ?_⟩
  · simp [findByBookingId]
  · intro af' h
    rw [hA] at h
    injection h with h
    subst h
    rfl
  · intro lf' h
    rw [hL] at h
    injection h with h
    subst h
    rfl

/-- C6 witness: fetching the concrete created booking by its returned id
yields the committed record. -/
theorem c6_witness : findByBookingId "DH-c" [bk0] = some bk0 :=
  (c6_round_trip env0 body0 files0 [] "DH-c" bk0 [bk0] rfl).1

/-- A concrete body choosing Cash with a transaction id. -/
def bodyCash : ReqBody :=
  { body0 with paymentMode := some "Cash", txnId := some "TXN1" }

/-- C9 counterexample: a submission with `paymentMode = "Cash"` and a
non-empty `txnId` is accepted and committed with both values, so a Cash
booking does carry a `txnId`. -/
theorem c9_counterexample :
    ((postBooking env0 bodyCash files0 []).1.toOption.map
      (fun r => (r.2.paymentMode, r.2.txnId))) = some ("Cash", some "TXN1") :=
  rfl

/-- C9 (amended): in every committed record the stored `txnId` is
determined by the submitted `txnId` alone — the submitted value when
non-empty and null when absent or empty — regardless of `paymentMode`;
in particular a Cash booking may carry a `txnId`. -/
theorem c9_txnid_payment_independent (env : Env) (body : ReqBody)
    (files : ReqFiles) (store : List Booking) (id : String) (b : Booking)
    (store' : List Booking)
    (hok : postBooking env body files store = (Except.ok (id, b), store')) :
    b.txnId = jsOrNull body.txnId := by
  obtain ⟨hreq, hver, ⟨af, lf, hA, hL, hb⟩, hid, hfresh, hstore⟩ :=
    postBooking_ok_inv env body files store id b store' hok
  subst hb
  rfl

/-- The record committed by the concrete Cash submission. -/
def bkCash : Booking := { bk0 with paymentMode := "Cash", txnId := some "TXN1" }

/-- C9 witness: the concrete Cash submission stores its submitted
transaction id. -/
theorem c9_witness : bkCash.txnId = jsOrNull bodyCash.txnId :=
  c9_txnid_payment_independent env0 bodyCash files0 [] "DH-c" bkCash [bkCash]
    rfl

/-- C7: for every state of the store, the recent-list endpoint returns
bookings in non-increasing `createdAt` order and never more than 200
items. -/
theorem c7_list_recent (store : List Booking) :
    (listRecent store).length ≤ 200 ∧
    (listRecent store).Pairwise (fun a b => b.createdAt ≤ a.createdAt) := by
  constructor
  · exact List.length_take_le 200 _
  · have hs :=
      @List.sorted_mergeSort Booking
        (fun a b => decide (b.createdAt ≤ a.createdAt))
        (fun a b c hab hbc => by
          simp only [decide_eq_true_eq] at hab hbc ⊢
          omega)
        (fun a b => by
          simp only [Bool.or_eq_true, decide_eq_true_eq]
          exact Int.le_total b.createdAt a.createdAt)
        store
    refine List.Pairwise.sublist (List.take_sublist _ _) ?_
    exact hs.imp (fun h => by simpa using h)

/-- C8: file intake rejects an upload with a  nonimage declared content
type as unsupported media, rejects an upload whose byte length exceeds
the 5 MiB ceiling as too large, and any file-intake rejection leaves the
store without a booking record. -/
theorem c8_file_gates (p : UploadPart) (fname : String) (env : Env)
    (body : ReqBody) (aUp lUp : Option UploadPart) (store : List Booking)
    (disk : List String) :
    (strStartsWith p.mimetype "image/" = false →
      acceptFile p fname = Except.error FileError.unsupportedMediaType) ∧
    (strStartsWith p.mimetype "image/" = true → fileSizeLimit < p.size →
      acceptFile p fname = Except.error FileError.payloadTooLarge) ∧
    (∀ e, (handleRequest env body aUp lUp store disk).response =
        Except.error (ReqError.file e) →
      (handleRequest env body aUp lUp store disk).store = store) := by
  refine ⟨?_, ?_, ?_⟩
  · intro h
    simp [acceptFile, h]
  · intro h1 h2
    simp [acceptFile, h1, h2]
  · intro e he
    rcases hA : intakeSlot env.now env.tokA aUp disk with eA | ⟨fA, disk1⟩
    · simp [handleRequest, hA]
    · rcases hL : intakeSlot env.now env.tokL lUp disk1 with eL | ⟨fL, disk2⟩
      · simp [handleRequest, hA, hL]
      · rcases hP : postBooking env body ⟨fA, fL⟩ store with ⟨res, store2⟩
        cases res with
        | error e' => simp [handleRequest, hA, hL, hP] at he
        | ok r => simp [handleRequest, hA, hL, hP] at he

/-- C8 witness: a PDF part is rejected as unsupported media, an oversize
image part is rejected as too large, and a request whose upload is
rejected leaves the empty store empty. -/
theorem c8_witness :
    acceptFile ⟨"application/pdf", 10, ".pdf"⟩ "f" =
      Except.error FileError.unsupportedMediaType ∧
    acceptFile ⟨"image/png", 5242881, ".png"⟩ "f" =
      Except.error FileError.payloadTooLarge ∧
    (handleRequest env0 body0 (some ⟨"application/pdf", 10, ".pdf"⟩) none []
      []).store = [] :=
  ⟨(c8_file_gates ⟨"application/pdf", 10, ".pdf"⟩ "f" env0 body0 none none []
      []).1 (by decide),
   (c8_file_gates ⟨"image/png", 5242881, ".png"⟩ "f" env0 body0 none none []
      []).2.1 (by decide) (by decide),
   (c8_file_gates ⟨"application/pdf", 10, ".pdf"⟩ "f" env0 body0
      (some ⟨"application/pdf", 10, ".pdf"⟩) none [] []).2.2
     FileError.unsupportedMediaType rfl⟩

/-- C10: when both uploaded parts are accepted by file intake but the
handler then rejects the submission at a validation gate, the two stored
files remain in the upload directory (they were written before the gates
ran) while the store stays without a record: gate rejection is not
atomic with respect to the file-storage side effect. -/
theorem c10_gate_rejection_keeps_files (env : Env) (body : ReqBody)
    (store : List Booking) (disk : List String) (pa pl : UploadPart)
    (fa fl : StoredFile)
    (hA : acceptFile pa (mkFilename env.now env.tokA pa.originalExt) =
      Except.ok fa)
    (hL : acceptFile pl (mkFilename env.now env.tokL pl.originalExt) =
      Except.ok fl)
    (e : ApiError)
    (_hgate : e = ApiError.missingFields ∨ e = ApiError.verificationRequired ∨
             e = ApiError.missingDocuments)
    (hresp : (handleRequest env body (some pa) (some pl) store disk).response =
      Except.error (ReqError.api e)) :
    (handleRequest env body (some pa) (some pl) store disk).disk =
      disk ++ [fa.filename, fl.filename] ∧
    (handleRequest env body (some pa) (some pl) store disk).store = store := by
  have hiA : intakeSlot env.now env.tokA (some pa) disk =
      Except.ok (some fa, disk ++ [fa.filename]) := by
    simp [intakeSlot, hA]
  have hiL : intakeSlot env.now env.tokL (some pl) (disk ++ [fa.filename]) =
      Except.ok (some fl, disk ++ [fa.filename] ++ [fl.filename]) := by
    simp [intakeSlot, hL]
  rcases hP : postBooking env body ⟨some fa, some fl⟩ store with ⟨res, store2⟩
  cases res with
  | error eP =>
      have hst : store2 = store :=
        postBooking_error_inv env body ⟨some fa, some fl⟩ store eP store2 hP
      constructor
      · simp [handleRequest, hiA, hiL, hP]
      · simp [handleRequest, hiA, hiL, hP, hst]
  | ok r =>
      simp [handleRequest, hiA, hiL, hP] at hresp

/-- A concrete accepted image part. -/
def imgPart : UploadPart := ⟨"image/jpeg", 100, ".jpg"⟩

/-- C10 witness: a submission with two accepted images but a missing
`name` field is gate-rejected, yet both generated files remain in the
upload directory and the store stays empty. -/
theorem c10_witness :
    (handleRequest env0 { body0 with name := none } (some imgPart)
      (some imgPart) [] []).disk = [] ++ ["0-a.jpg", "0-b.jpg"] ∧
    (handleRequest env0 { body0 with name := none } (some imgPart)
      (some imgPart) [] []).store = [] :=
  c10_gate_rejection_keeps_files env0 { body0 with name := none } [] []
    imgPart imgPart ⟨"0-a.jpg"⟩ ⟨"0-b.jpg"⟩ rfl rfl ApiError.missingFields
    (Or.inl rfl) rfl
